import Mathlib

/-!
Shallow embedding of the Nifty-stocks aggregation pipeline (src/app.py).

Python floats are modelled as rationals (`ℚ`); the claims under study only
exercise order comparisons, field arithmetic and exact equalities, where `ℚ`
agrees with IEEE doubles on the values involved.  Python `None` / a missing
dict key is modelled with `Option`.  A Python dict literal built by successive
assignments is modelled as an association list in insertion order, since the
claims talk about which fields a record contains.  External I/O (the remote
CSV, yfinance, the pledge scrape, the wall clock) is passed in explicitly as
an environment, so every function is a total Lean function of its inputs.
-/

/-- A JSON-serialisable value stored in a `stock_data` dict. -/
inductive Val where
  | str : String → Val
  | num : ℚ → Val
  | null : Val
deriving DecidableEq, Repr

/-- A `stock_data` dict: association list in insertion order. -/
abbrev StockRecord := List (String × Val)

/-- Result of `get_recommendation`: the `{"signal": ..., "reason": ...}` dict. -/
structure Recommendation where
  signal : String
  reason : String
deriving DecidableEq, Repr

/-- The fields of `ticker.info` that `fetch_all_data` reads.  `none` models a
missing key (for `currentPrice` it also models an explicit `None` value, which
the guard in `fetch_all_data` treats identically).  An explicitly stored null
`previousClose` would raise a `TypeError` inside the per-symbol `try` block;
that path is folded into `Env.raises` below. -/
structure TickerInfo where
  longName : Option String
  currentPrice : Option ℚ
  previousClose : Option ℚ
  trailingPE : Option ℚ

/-- One cycle's external world: the remote symbol-list fetch outcome
(`none` = any exception while downloading/parsing the CSV or reading its
Symbol column), per-symbol `ticker.info` data, a per-symbol flag for an
unexpected exception anywhere in that symbol's `try` block, the 1-month
close-price history, and the pledge percentage returned by
`get_pledge_percentage` (which never fails outward). -/
structure Env where
  symbolFetch : Option (List String)
  info : String → TickerInfo
  raises : String → Bool
  hist : String → List ℚ
  pledge : String → ℚ

/-- Wall-clock time components consumed by `time.strftime`. -/
structure Tm where
  hour : ℕ
  minute : ℕ
  sec : ℕ
  month : ℕ
  day : ℕ
  year : ℕ

/-- The value returned by `fetch_all_data`. -/
structure FetchResult where
  data : List StockRecord
  last_updated : String
deriving DecidableEq

/-- The hardcoded fallback list in `get_nifty100_symbols` (src/app.py:29-40). -/
def fallbackSymbols : List String :=
  ["ADANIENT", "ADANIGREEN", "ADANIPORTS", "ADANIPOWER", "AMBUJACEM",
   "APOLLOHOSP", "ASIANPAINT", "AXISBANK", "BAJAJ-AUTO", "BAJFINANCE",
   "BAJAJFINSV", "BPCL", "BHARTIARTL", "BRITANNIA", "CIPLA", "COALINDIA",
   "DIVISLAB", "DRREDDY", "EICHERMOT", "GRASIM", "HCLTECH", "HDFCBANK",
   "HDFCLIFE", "HEROMOTOCO", "HINDALCO", "HINDUNILVR", "ICICIBANK",
   "ITC", "INDUSINDBK", "INFY", "JSWSTEEL", "KOTAKBANK", "LTIM", "LT",
   "M&M", "MARUTI", "NTPC", "NESTLEIND", "ONGC", "POWERGRID", "RELIANCE",
   "SBILIFE", "SBIN", "SUNPHARMA", "TCS", "TATACONSUM", "TATAMOTORS",
   "TATASTEEL", "TECHM", "TITAN", "ULTRACEMCO", "WIPRO", "ZOMATO",
   "DMART", "BAJAJHLDNG", "ICICIGI", "TRENT"]

/-- src/app.py:12-40.  A successful fetch returns `df['Symbol'].tolist()`
unchanged; any exception in the `try` block falls back to the hardcoded
list. -/
def get_nifty100_symbols (fetched : Option (List String)) : List String :=
  match fetched with
  | some symbols => symbols
  | none => fallbackSymbols

/-- Day-over-day deltas `data['Close'].diff()` restricted to its numeric
entries: delta i = close (i+1) - close i. -/
def listDeltas (data : List ℚ) : List ℚ :=
  List.zipWith (fun a b => b - a) data data.tail

/-- `(delta.where(delta > 0, 0))` (src/app.py:48).  The leading `NaN` that
`.diff()` puts at position 0 fails the `delta > 0` test, so `.where`
replaces it by 0: hence the leading `0 ::`. -/
def gainList (data : List ℚ) : List ℚ :=
  0 :: (listDeltas data).map (fun d => if 0 < d then d else 0)

/-- `(-delta.where(delta < 0, 0))` (src/app.py:49), with the same leading 0
for the `NaN` at position 0. -/
def lossList (data : List ℚ) : List ℚ :=
  0 :: (listDeltas data).map (fun d => if d < 0 then -d else 0)

/-- The last entry of `series.rolling(window=w).mean()`: the unweighted mean
of the trailing `w` entries when at least `w` entries exist and `w ≥ 1`;
`none` models a `NaN` (or pandas rejecting a zero window). -/
def rollingMeanLast (l : List ℚ) (w : ℕ) : Option ℚ :=
  if 1 ≤ w ∧ w ≤ l.length then some ((l.drop (l.length - w)).sum / (w : ℚ))
  else none

/-- src/app.py:45-53.  Returns `none` for Python `None`; the `| _, _ => none`
arm models the case where the rolling means carry no numeric value at the
last position (only possible when `window = 0`, where pandas produces no
numeric result either). -/
def calculate_rsi (data : List ℚ) (window : ℕ := 14) : Option ℚ :=
  if data = [] ∨ data.length < window then none
  else
    match rollingMeanLast (gainList data) window,
          rollingMeanLast (lossList data) window with
    | some g, some l => if l = 0 then some 100 else some (100 - 100 / (1 + g / l))
    | _, _ => none

/-- Score delta and appended reasons of the `rsi` block of
`get_recommendation` (src/app.py:75-81). -/
def rsiPart : Option ℚ → ℤ × List String
  | none => (0, [])
  | some r =>
      if r < 30 then (3, [("Oversold (RSI < 30)")])
      else if r < 40 then (1, [("Approaching Oversold")])
      else (0, [])

/-- Score delta and appended reasons of the `pe` block (src/app.py:82-88). -/
def pePart : Option ℚ → ℤ × List String
  | none => (0, [])
  | some pe =>
      if 0 < pe ∧ pe < 20 then (2, [("Low P/E (< 20)")])
      else if pe < 0 then (-1, [("Negative P/E")])
      else (0, [])

/-- Score delta and appended reasons of the `pledge` block
(src/app.py:89-95): `if pledge > 25: ... elif pledge > 50: ...`. -/
def pledgePart : Option ℚ → ℤ × List String
  | none => (0, [])
  | some p =>
      if 25 < p then (-2, [("High Pledge (> 25%)")])
      else if 50 < p then (-4, [("Very High Pledge (> 50%)")])
      else (0, [])

/-- src/app.py:71-99.  The three blocks touch disjoint state, so the final
score is the sum of the three deltas and the reason list their concatenation
in block order. -/
def get_recommendation (rsi pe pledge : Option ℚ) : Recommendation :=
  let score := (rsiPart rsi).1 + (pePart pe).1 + (pledgePart pledge).1
  let reason := (rsiPart rsi).2 ++ (pePart pe).2 ++ (pledgePart pledge).2
  let sep : String := ", "
  if 3 ≤ score then { signal := "Yes", reason := String.intercalate sep reason }
  else { signal := "No", reason := "Neutral or Unfavorable" }

/-- `(change / prev_close) * 100 if prev_close else 0` (src/app.py:133):
a float is truthy exactly when nonzero. -/
def pctChange (change prev_close : ℚ) : ℚ :=
  if prev_close ≠ 0 then change / prev_close * 100 else 0

/-- Render an optional float as a JSON value. -/
def optNum : Option ℚ → Val
  | none => Val.null
  | some q => Val.num q

/-- The `stock_data` dict assembled in src/app.py:127-147 for a symbol whose
guard passed with current price `price`, listing the keys in assignment
order. -/
def buildRecord (env : Env) (s : String) (price : ℚ) : StockRecord :=
  let prev_close := ((env.info s).previousClose).getD 0
  let change := price - prev_close
  let rsi := calculate_rsi (env.hist s) 14
  let pe := (env.info s).trailingPE
  let pledge := env.pledge s
  let rec' := get_recommendation rsi pe (some pledge)
  [(("name"), Val.str (((env.info s).longName).getD s)),
   (("symbol"), Val.str s),
   (("price"), Val.num price),
   (("change"), Val.num change),
   (("pctChange"), Val.num (pctChange change prev_close)),
   (("rsi"), optNum rsi),
   (("pe"), optNum pe),
   (("pledge"), Val.num pledge),
   (("recommendation"), Val.str rec'.signal),
   (("reason"), Val.str rec'.reason)]

/-- One iteration of the symbol loop (src/app.py:114-153): `none` when the
symbol is skipped, either because an exception escaped somewhere in the
`try` block (`env.raises`) or because the info guard on `currentPrice`
failed. -/
def processSymbol (env : Env) (s : String) : Option StockRecord :=
  if env.raises s then none
  else
    match (env.info s).currentPrice with
    | none => none
    | some price => some (buildRecord env s price)

/-- The loop of src/app.py:114-153: records appended in list order, skips
dropped. -/
def fetchLoop (env : Env) : List String → List StockRecord
  | [] => []
  | s :: rest =>
      match processSymbol env s with
      | none => fetchLoop env rest
      | some r => r :: fetchLoop env rest

/-- A symbol survives the loop (is neither skipped nor failed). -/
def keeps (env : Env) (s : String) : Bool :=
  !(env.raises s) && ((env.info s).currentPrice).isSome

/-- Zero-pad to two digits. -/
def pad2 (n : ℕ) : String :=
  if n < 10 then "0" ++ toString n else toString n

/-- `%I`: hour on a 12-hour clock, zero-padded source gives 01-12. -/
def hour12 (h : ℕ) : ℕ :=
  if h % 12 = 0 then 12 else h % 12

/-- `%p` for a 24-hour `tm_hour`. -/
def ampm (h : ℕ) : String :=
  if h < 12 then "AM" else "PM"

/-- `%b`: abbreviated month name (empty for an out-of-range month, which
`time.strftime` never receives from `time.localtime`). -/
def monthAbbrev : ℕ → String
  | 1 => "Jan" | 2 => "Feb" | 3 => "Mar" | 4 => "Apr"
  | 5 => "May" | 6 => "Jun" | 7 => "Jul" | 8 => "Aug"
  | 9 => "Sep" | 10 => "Oct" | 11 => "Nov" | 12 => "Dec"
  | _ => ""

/-- `time.strftime('%I:%M:%S %p, %b %d, %Y')` (src/app.py:158). -/
def formatTimestamp (t : Tm) : String :=
  pad2 (hour12 t.hour) ++ ":" ++ pad2 t.minute ++ ":" ++ pad2 t.sec ++
    " " ++ ampm t.hour ++ ", " ++ monthAbbrev t.month ++ " " ++ pad2 t.day ++
    ", " ++ toString t.year

/-- src/app.py:103-159: resolve the symbol list, run the loop, stamp the
result. -/
def fetch_all_data (env : Env) (now : Tm) : FetchResult :=
  { data := fetchLoop env (get_nifty100_symbols env.symbolFetch),
    last_updated := formatTimestamp now }

/-- A `ticker.info` with every field missing (also covers `not info`). -/
def emptyInfo : TickerInfo := ⟨none, none, none, none⟩

/-- Concrete cycle for exercising claim C1: one symbol whose quote succeeds. -/
def infoC1 : TickerInfo := ⟨some ("Reliance Industries"), some 110, some 100, some 15⟩

/-- Environment for claim C1: a single-symbol cycle that emits one record. -/
def envC1 : Env :=
  ⟨some [("RELIANCE")], fun _ => infoC1, fun _ => false, fun _ => [], fun _ => 0⟩

/-- A concrete wall-clock instant for claim C1. -/
def tmC1 : Tm := ⟨15, 45, 5, 1, 2, 2026⟩

/-- Environment for claim C5's witness: every quote fetch yields no usable
current price. -/
def envC5 : Env :=
  ⟨some [("TCS"), ("INFY")], fun _ => emptyInfo, fun _ => false, fun _ => [], fun _ => 0⟩

/-- A concrete wall-clock instant for claim C5's witness. -/
def tmC5 : Tm := ⟨10, 30, 0, 10, 12, 2025⟩

/-- A 14-point strictly increasing close history for claim C7's witness:
every day-over-day loss is 0. -/
def histC7 : List ℚ := [1, 2, 3, 4, 5, 6, 7, 8, 9, 10, 11, 12, 13, 14]

/-- Quote data for claim C8's witness: price 110, previous close 100. -/
def infoC8 : TickerInfo := ⟨none, some 110, some 100, none⟩

/-- Environment for claim C8's witness. -/
def envC8 : Env :=
  ⟨some [("RELIANCE")], fun _ => infoC8, fun _ => false, fun _ => [], fun _ => 0⟩

/-- A concrete wall-clock instant for claim C8's witness. -/
def tmC8 : Tm := ⟨0, 0, 0, 1, 1, 2026⟩

/-! ### Helper lemmas -/

lemma mem_fetchLoop {env : Env} {r : StockRecord} :
    ∀ {l : List String}, r ∈ fetchLoop env l →
      ∃ s price, r = buildRecord env s price := by
  intro l h
  induction l with
  | nil => cases h
  | cons s rest ih =>
      unfold fetchLoop at h
      revert h
      cases hp : processSymbol env s with
      | none => intro h; exact ih h
      | some r' =>
          intro h
          rcases List.mem_cons.mp h with he | hm
          · unfold processSymbol at hp
            revert hp
            split
            · intro hp; cases hp
            · cases hc : (env.info s).currentPrice with
              | none => intro hp; cases hp
              | some price =>
                  intro hp
                  refine ⟨s, price, ?_⟩
                  rw [he, ← Option.some_inj.mp hp]
          · exact ih hm

lemma fetchLoop_nil_of_no_price {env : Env}
    (h : ∀ s, (env.info s).currentPrice = none) :
    ∀ l, fetchLoop env l = [] := by
  intro l
  induction l with
  | nil => rfl
  | cons s rest ih =>
      unfold fetchLoop processSymbol
      rw [h s]
      by_cases hr : env.raises s <;> simp [hr, ih]

lemma lookup_symbol_buildRecord (env : Env) (s : String) (p : ℚ) :
    List.lookup ("symbol") (buildRecord env s p) = some (Val.str s) := rfl

lemma fetchLoop_symbols (env : Env) :
    ∀ l : List String,
      (fetchLoop env l).map (fun r => List.lookup ("symbol") r) =
        (l.filter (keeps env)).map (fun s => some (Val.str s)) := by
  intro l
  induction l with
  | nil => rfl
  | cons s rest ih =>
      unfold fetchLoop processSymbol
      by_cases hr : env.raises s
      · have hk : keeps env s = false := by simp [keeps, hr]
        simp [hr, hk, ih]
      · cases hc : (env.info s).currentPrice with
        | none =>
            have hk : keeps env s = false := by simp [keeps, hr, hc]
            simp [hr, hc, hk, ih]
        | some p =>
            have hk : keeps env s = true := by simp [keeps, hr, hc]
            simp [hr, hc, hk, ih, lookup_symbol_buildRecord]

lemma pePart_le (o : Option ℚ) : (pePart o).1 ≤ 2 := by
  cases o with
  | none => simp [pePart]
  | some pe => simp only [pePart]; split_ifs <;> simp

lemma pledgePart_le (o : Option ℚ) : (pledgePart o).1 ≤ 0 := by
  cases o with
  | none => simp [pledgePart]
  | some p => simp only [pledgePart]; split_ifs <;> simp

lemma rsiPart_of_not_lt40 {r : ℚ} (h : ¬ r < 40) : rsiPart (some r) = (0, []) := by
  simp only [rsiPart]
  rw [if_neg (fun h30 => h (lt_trans h30 (by norm_num))), if_neg h]

/-! ### Claims -/

/-- Claim C1, counterexample.  The claim says every emitted StockRecord
contains numeric fields marketCap, high and low (with market cap rescaled by
10^7).  In the concrete cycle `envC1` a record is emitted and it carries no
marketCap, high or low key at all: `fetch_all_data` never assigns them. -/
theorem claim_C1_counterexample :
    ¬ (∀ r ∈ (fetch_all_data envC1 tmC1).data,
        ("marketCap") ∈ r.map Prod.fst ∧ ("high") ∈ r.map Prod.fst ∧
          ("low") ∈ r.map Prod.fst) := by
  intro h
  exact absurd (h (buildRecord envC1 ("RELIANCE") 110) (List.Mem.head _))
    (by decide)

/-- Claim C1, amended: every StockRecord in `FetchResult.data` consists of
exactly the keys name, symbol, price, change, pctChange, rsi, pe, pledge,
recommendation, reason, in that order; in particular it contains no
marketCap, high or low field and no 10^7 rescaling occurs. -/
theorem claim_C1 :
    ∀ (env : Env) (now : Tm) (r : StockRecord),
      r ∈ (fetch_all_data env now).data →
        r.map Prod.fst =
            [("name"), ("symbol"), ("price"), ("change"), ("pctChange"),
             ("rsi"), ("pe"), ("pledge"), ("recommendation"), ("reason")] ∧
          ("marketCap") ∉ r.map Prod.fst ∧ ("high") ∉ r.map Prod.fst ∧
            ("low") ∉ r.map Prod.fst := by
  intro env now r hr
  obtain ⟨s, p, rfl⟩ := mem_fetchLoop hr
  have hk : (buildRecord env s p).map Prod.fst =
      [("name"), ("symbol"), ("price"), ("change"), ("pctChange"),
       ("rsi"), ("pe"), ("pledge"), ("recommendation"), ("reason")] := rfl
  refine ⟨hk, ?_, ?_, ?_⟩ <;> rw [hk] <;> decide

/-- Claim C1, witness: the amended statement applied to the record emitted by
the concrete cycle `envC1`. -/
theorem claim_C1_witness :
    buildRecord envC1 ("RELIANCE") 110 ∈ (fetch_all_data envC1 tmC1).data ∧
      ((buildRecord envC1 ("RELIANCE") 110).map Prod.fst =
          [("name"), ("symbol"), ("price"), ("change"), ("pctChange"),
           ("rsi"), ("pe"), ("pledge"), ("recommendation"), ("reason")] ∧
        ("marketCap") ∉ (buildRecord envC1 ("RELIANCE") 110).map Prod.fst ∧
        ("high") ∉ (buildRecord envC1 ("RELIANCE") 110).map Prod.fst ∧
        ("low") ∉ (buildRecord envC1 ("RELIANCE") 110).map Prod.fst) :=
  ⟨List.Mem.head _, claim_C1 envC1 tmC1 _ (List.Mem.head _)⟩

/-- Claim C2, counterexample.  The claim says `computeRecommendation(50, 25,
60)` returns signal "No" with reason "High Pledge (> 25%)"; the code discards
the accumulated reason list whenever the score is below 3 and returns the
literal string "Neutral or Unfavorable" instead. -/
theorem claim_C2_counterexample :
    get_recommendation (some 50) (some 25) (some 60) ≠
      { signal := "No", reason := ("High Pledge (> 25%)") } := by decide

/-- Claim C2, amended: `computeRecommendation(50, 25, 60)` returns signal
"No" with reason "Neutral or Unfavorable" (rsi and pe branches contribute
nothing, pledge 60 > 25 gives score -2 < 3, and every "No" answer carries the
fixed reason string). -/
theorem claim_C2 :
    get_recommendation (some 50) (some 25) (some 60) =
      { signal := "No", reason := ("Neutral or Unfavorable") } := by decide

/-- Claim C3: for every pledge value above 50 only the `>25` branch fires
(score delta -2, reason "High Pledge (> 25%)"); the `>50` branch with its
-4 penalty is unreachable for every input, and consequently
`get_recommendation` cannot distinguish a pledge above 50 from any other
pledge above 25. -/
theorem claim_C3 :
    (∀ p : ℚ, 50 < p →
        pledgePart (some p) = (-2, [("High Pledge (> 25%)")])) ∧
      (∀ o : Option ℚ,
        pledgePart o ≠ (-4, [("Very High Pledge (> 50%)")])) ∧
      (∀ rsi pe : Option ℚ, ∀ p : ℚ, 50 < p →
        get_recommendation rsi pe (some p) = get_recommendation rsi pe (some 30)) := by
  refine ⟨?_, ?_, ?_⟩
  · intro p hp
    simp only [pledgePart]
    rw [if_pos (by linarith : (25 : ℚ) < p)]
  · intro o
    cases o with
    | none => simp [pledgePart]
    | some p =>
        simp only [pledgePart]
        split_ifs with h1 h2
        · decide
        · exact absurd (lt_trans (by norm_num : (25 : ℚ) < 50) h2) h1
        · decide
  · intro rsi pe p hp
    have h1 : pledgePart (some p) = pledgePart (some 30) := by
      simp only [pledgePart]
      rw [if_pos (by linarith : (25 : ℚ) < p), if_pos (by norm_num : (25 : ℚ) < 30)]
    unfold get_recommendation
    rw [h1]

/-- Claim C3, witness: the first part applied at pledge 60. -/
theorem claim_C3_witness :
    (50 : ℚ) < 60 ∧ pledgePart (some 60) = (-2, [("High Pledge (> 25%)")]) :=
  ⟨by norm_num, claim_C3.1 60 (by norm_num)⟩

/-- Claim C4, counterexample.  The claim says `get_nifty100_symbols` always
returns a non-empty sequence; but a successful remote fetch whose Symbol
column is empty (a header-only CSV parses fine and `tolist()` gives `[]`) is
returned unchanged, so the result is empty. -/
theorem claim_C4_counterexample :
    ¬ (∀ fetched : Option (List String), get_nifty100_symbols fetched ≠ []) :=
  fun h => h (some []) rfl

/-- Claim C4, amended: `get_nifty100_symbols` never raises past its boundary
(it is total); on any failure of the remote fetch it returns exactly the
fixed, hardcoded fallback sequence, which is non-empty; on a successful fetch
it returns the fetched symbol list unchanged (which is non-empty only when
the remote list is). -/
theorem claim_C4 :
    get_nifty100_symbols none = fallbackSymbols ∧ fallbackSymbols ≠ [] ∧
      ∀ symbols : List String, get_nifty100_symbols (some symbols) = symbols :=
  ⟨rfl, by decide, fun _ => rfl⟩

/-- Claim C5: if every symbol's quote fetch yields no usable current price,
`fetch_all_data` returns without raising a result whose data is the empty
sequence and whose last_updated is the formatted current wall-clock time. -/
theorem claim_C5 :
    ∀ (env : Env) (now : Tm), (∀ s, (env.info s).currentPrice = none) →
      fetch_all_data env now =
        { data := [], last_updated := formatTimestamp now } := by
  intro env now h
  unfold fetch_all_data
  rw [fetchLoop_nil_of_no_price h]

/-- Claim C5, witness: the concrete all-absent cycle `envC5`, with the
timestamp evaluated. -/
theorem claim_C5_witness :
    (∀ s, (envC5.info s).currentPrice = none) ∧
      fetch_all_data envC5 tmC5 =
        { data := [], last_updated := ("10:30:00 AM, Oct 12, 2025") } := by
  refine ⟨fun s => rfl, ?_⟩
  rw [claim_C5 envC5 tmC5 (fun s => rfl)]
  decide

/-- Claim C6: `calculate_rsi` returns absent whenever the history is empty
or has fewer than `window` points, for every non-negative window. -/
theorem claim_C6 :
    ∀ (data : List ℚ) (window : ℕ), data = [] ∨ data.length < window →
      calculate_rsi data window = none := by
  intro data window h
  unfold calculate_rsi
  rw [if_pos h]

/-- Claim C6, witness: a one-point history against the default window 14. -/
theorem claim_C6_witness :
    ([(3 : ℚ)] = [] ∨ [(3 : ℚ)].length < 14) ∧ calculate_rsi [(3 : ℚ)] 14 = none :=
  ⟨Or.inr (by decide), claim_C6 _ _ (Or.inr (by decide))⟩

/-- Claim C7: for every history with at least `window` points whose most
recent smoothed-loss value (the unweighted mean of the trailing `window`
entries of the loss series) is exactly 0, `calculate_rsi` returns exactly
100. -/
theorem claim_C7 :
    ∀ (data : List ℚ) (window : ℕ), window ≤ data.length →
      rollingMeanLast (lossList data) window = some 0 →
      calculate_rsi data window = some 100 := by
  intro data window hlen h0
  have hw : 1 ≤ window ∧ window ≤ (lossList data).length := by
    by_contra hc
    unfold rollingMeanLast at h0
    rw [if_neg hc] at h0
    exact Option.noConfusion h0
  have hne : data ≠ [] := by
    intro he
    rw [he] at hlen
    simp at hlen
    omega
  have hguard : ¬ (data = [] ∨ data.length < window) := by
    push_neg
    exact ⟨hne, hlen⟩
  have hglen : window ≤ (gainList data).length := by
    have : (gainList data).length = (lossList data).length := by
      simp [gainList, lossList]
    rw [this]
    exact hw.2
  have hg : ∃ g, rollingMeanLast (gainList data) window = some g := by
    unfold rollingMeanLast
    rw [if_pos ⟨hw.1, hglen⟩]
    exact ⟨_, rfl⟩
  obtain ⟨g, hg⟩ := hg
  unfold calculate_rsi
  rw [if_neg hguard, hg, h0]
  simp

/-- Claim C7, witness: a strictly increasing 14-point history, whose trailing
losses are all 0, against window 14. -/
theorem claim_C7_witness :
    (14 ≤ histC7.length ∧ rollingMeanLast (lossList histC7) 14 = some 0) ∧
      calculate_rsi histC7 14 = some 100 :=
  ⟨⟨by decide,
    by norm_num [histC7, rollingMeanLast, lossList, listDeltas, List.zipWith]⟩,
   claim_C7 histC7 14 (by decide)
    (by norm_num [histC7, rollingMeanLast, lossList, listDeltas, List.zipWith])⟩

/-- Claim C8: every emitted StockRecord's pctChange field equals
change / prevClose * 100 when prevClose is nonzero (truthy) and 0 when
prevClose is zero (falsy); in particular price 110 with prevClose 100 gives
pctChange 10, and prevClose 0 gives pctChange 0 with no division by zero. -/
theorem claim_C8 :
    (∀ (env : Env) (now : Tm) (r : StockRecord),
        r ∈ (fetch_all_data env now).data →
          ∃ price prev_close : ℚ,
            List.lookup ("price") r = some (Val.num price) ∧
            List.lookup ("change") r = some (Val.num (price - prev_close)) ∧
            List.lookup ("pctChange") r =
              some (Val.num
                (if prev_close ≠ 0 then (price - prev_close) / prev_close * 100
                 else 0))) ∧
      pctChange (110 - 100) 100 = 10 ∧ (∀ c : ℚ, pctChange c 0 = 0) := by
  refine ⟨?_, by norm_num [pctChange], fun c => by simp [pctChange]⟩
  intro env now r hr
  obtain ⟨s, p, rfl⟩ := mem_fetchLoop hr
  exact ⟨p, ((env.info s).previousClose).getD 0, rfl, rfl, rfl⟩

/-- Claim C8, witness: the record emitted by the concrete cycle `envC8`
(price 110, previous close 100). -/
theorem claim_C8_witness :
    buildRecord envC8 ("RELIANCE") 110 ∈ (fetch_all_data envC8 tmC8).data ∧
      ∃ price prev_close : ℚ,
        List.lookup ("price") (buildRecord envC8 ("RELIANCE") 110) =
            some (Val.num price) ∧
          List.lookup ("change") (buildRecord envC8 ("RELIANCE") 110) =
            some (Val.num (price - prev_close)) ∧
          List.lookup ("pctChange") (buildRecord envC8 ("RELIANCE") 110) =
            some (Val.num
              (if prev_close ≠ 0 then (price - prev_close) / prev_close * 100
               else 0)) :=
  ⟨List.Mem.head _, claim_C8.1 envC8 tmC8 _ (List.Mem.head _)⟩

/-- Claim C9: the records in `fetch_all_data`'s output carry exactly the
resolved symbols that were neither skipped nor failed, in resolution order —
no reordering occurs. -/
theorem claim_C9 :
    ∀ (env : Env) (now : Tm),
      (fetch_all_data env now).data.map (fun r => List.lookup ("symbol") r) =
        ((get_nifty100_symbols env.symbolFetch).filter (keeps env)).map
          (fun s => some (Val.str s)) := by
  intro env now
  unfold fetch_all_data
  exact fetchLoop_symbols env _

/-- Claim C10: `get_recommendation` answers "Yes" only when rsi is present
and below 40; without the rsi bonus the attainable score from the pe and
pledge blocks is at most 2, below the "Yes" threshold of 3. -/
theorem claim_C10 :
    (∀ rsi pe pledge : Option ℚ,
        (get_recommendation rsi pe pledge).signal = ("Yes") →
          ∃ r, rsi = some r ∧ r < 40) ∧
      (∀ pe pledge : Option ℚ, (pePart pe).1 + (pledgePart pledge).1 ≤ 2) := by
  constructor
  · intro rsi pe pledge h
    by_contra hn
    push_neg at hn
    have hz : (rsiPart rsi).1 = 0 := by
      cases rsi with
      | none => rfl
      | some r => rw [rsiPart_of_not_lt40 (not_lt.mpr (hn r rfl))]
    have hs : ¬ (3 ≤ (rsiPart rsi).1 + (pePart pe).1 + (pledgePart pledge).1) := by
      rw [hz]
      have h1 := pePart_le pe
      have h2 := pledgePart_le pledge
      omega
    unfold get_recommendation at h
    rw [if_neg hs] at h
    exact absurd h (by decide)
  · intro pe pledge
    have h1 := pePart_le pe
    have h2 := pledgePart_le pledge
    omega

/-- Claim C10, witness: the first part applied at rsi 25, pe 15, pledge 10,
where the signal is "Yes". -/
theorem claim_C10_witness :
    (get_recommendation (some 25) (some 15) (some 10)).signal = ("Yes") ∧
      ∃ r, (some (25 : ℚ)) = some r ∧ r < 40 :=
  ⟨by decide, claim_C10.1 (some 25) (some 15) (some 10) (by decide)⟩

-- Additional spec §8 test cases, checked against the embedding.
example : get_recommendation (some 25) (some 15) (some 10) =
    { signal := "Yes", reason := ("Oversold (RSI < 30), Low P/E (< 20)") } := by
  decide

example : get_recommendation none none none =
    { signal := "No", reason := ("Neutral or Unfavorable") } := by decide
